import Mathlib

/-!
The program cluster-latency: a shallow embedding of `src/main.go`.

The program is one Go file: the type `App`, the background loop
`App.testLoop`, the HTTP handler `handlePing`, and the startup routine
`App.Run`.  Everything the program does is a call into a library
(glog, client-go, prometheus, net/http, os), so the embedding is
*effect-trace* based:

* each library call the source makes is recorded as an `Effect`, in program
  order, with the arguments the source passes;
* what a library call returns is taken from an environment `Env`
  (a Go result pair `(*T, error)` is `Option T × Option Err`, a nil pointer
  or a nil error being `none`);
* the way a function stops is an `Outcome`: it returns, `glog.Fatal` ends the
  process, or it panics (an explicit `panic(err)`, a nil-pointer dereference
  or an index out of range in an expression of the source);
* a nil pointer handed to the client library panics there: `NewForConfig`
  dereferences its configuration, and `CoreV1()` dereferences the client it
  is called on, so with a nil configuration or a nil client the program
  panics before the library is asked anything; the environment is consulted
  only with a client that is not nil;
* how long a library call takes is not part of the model: a delay inside a
  call (client-side rate limiting of a listing, say) is no effect of the
  program.

`testLoop` is `for { ... }` without exit; it is modelled with a bound on the
number of iterations, and the theorems about it state for which bounds the
result is reached.
-/

namespace ClusterLatency

/-! Data model -/

/-- A non-nil Go `error` value. -/
structure Err where
  msg : String
deriving DecidableEq, Repr

/-- The value behind a `*rest.Config`. -/
structure Config where
  host : String
deriving DecidableEq, Repr

/-- The value behind a `*kubernetes.Clientset`. -/
structure Clientset where
  id : Nat
deriving DecidableEq, Repr

/-- The type `v1.PodStatus`, the field the source reads. -/
structure PodStatus where
  PodIP : String
deriving DecidableEq, Repr

/-- The type `v1.Pod`, the fields the source reads. -/
structure Pod where
  Name : String
  Status : PodStatus
deriving DecidableEq, Repr

/-- The type `v1.PodList`. -/
structure PodList where
  Items : List Pod
deriving DecidableEq, Repr

/-- The type `v1.Node`, the field the source reads; `Labels` is a Go
`map[string]string`, kept as an association list. -/
structure Node where
  Labels : List (String × String)
deriving DecidableEq, Repr

/-- The type `v1.ServicePort`, the field the source reads (`int32`). -/
structure ServicePort where
  Port : Int
deriving DecidableEq, Repr

/-- The type `v1.ServiceSpec`. -/
structure ServiceSpec where
  Ports : List ServicePort
deriving DecidableEq, Repr

/-- The type `v1.Service`. -/
structure Service where
  Name : String
  Spec : ServiceSpec
deriving DecidableEq, Repr

/-- The two kinds of metric vector the source constructs. -/
inductive MetricKind
  | gaugeVec
  | summaryVec
deriving DecidableEq, Repr

/-- A metric vector as declared by `prometheus.NewGaugeVec` /
`prometheus.NewSummaryVec`: the constructor used, the options `Name` and
`Help`, and the label list. -/
structure MetricVec where
  kind : MetricKind
  Name : String
  Help : String
  labels : List String
deriving DecidableEq, Repr

/-- The declaration `type App struct` (main.go 17-27).  Pointer fields are `Option`, `none`
being nil. -/
structure App where
  kubeClient : Option Clientset
  kubeNamespace : String
  kubePodName : String
  kubeNodeName : String
  kubePodZone : String
  myService : Option Service
  metricDownloadProbeSize : Option MetricVec
  metricDownloadDurations : Option MetricVec
  metricPingDurations : Option MetricVec
deriving DecidableEq, Repr

/-- The zero value `App{}` (what `main` calls `Run` on, main.go 53). -/
def App.zero : App :=
  { kubeClient := none, kubeNamespace := "", kubePodName := "", kubeNodeName := "",
    kubePodZone := "", myService := none, metricDownloadProbeSize := none,
    metricDownloadDurations := none, metricPingDurations := none }

/-- The handlers the source installs. -/
inductive Handler
  | promhttp
  | handlePing
deriving DecidableEq, Repr

/-- The value a Go panic carries. -/
inductive PanicValue
  | error (e : Err)
  | nilDereference
  | indexOutOfRange (index len : Nat)
deriving DecidableEq, Repr

/-- How a function stops. -/
inductive Outcome
  | returned
  | fatal (msg : String)
  | panicked (p : PanicValue)
  | running
deriving DecidableEq, Repr

/-- Library calls, in the order the program makes them.  The first group is
what `src/main.go` calls.  The last group (`listenAndServe`, `sleep`,
`pingProbe`, `downloadProbe`, `observe`) names effects that statements about
the program speak of; no function of `src/main.go` produces them. -/
inductive Effect
  | glogInfo (msg : String)
  | glogInfoPodList (podList : Option PodList)
  | glogError (e : Err)
  | glogFatal (msg : String)
  | buildConfigFromFlags (masterUrl kubeconfigPath : String)
  | newForConfig (config : Option Config)
  | getenv (key : String)
  | nodesGet (client : Option Clientset) (name : String)
  | servicesGet (client : Option Clientset) (ns name : String)
  | podsList (client : Option Clientset) (ns labelSelector : String)
  | mustRegister (m : Option MetricVec)
  | httpHandle (pattern : String) (h : Handler)
  | goTestLoop (a : App)
  | listenAndServe (port : Int)
  | sleep
  | pingProbe (peer : String)
  | downloadProbe (peer : String)
  | observe (series : String)
deriving DecidableEq, Repr

/-- What the library calls return.  `podsList n` is the result of the
`n`-th listing (counted from 0) that `testLoop` asks for. -/
structure Env where
  buildConfigFromFlags : String → String → Option Config × Option Err
  newForConfig : Option Config → Option Clientset × Option Err
  getenv : String → String
  nodesGet : Option Clientset → String → Option Node × Option Err
  servicesGet : Option Clientset → String → String → Option Service × Option Err
  podsList : Nat → Option Clientset → String → String → Option PodList × Option Err

/-- Indexing a Go `map[string]string`: the value of the key, `""` when the
key is absent. -/
def mapIndex (m : List (String × String)) (key : String) : String :=
  match m.lookup key with
  | some v => v
  | none => ""

/-- The statement `if err != nil { glog.Errorln(err) }`. -/
def logIfErr : Option Err → List Effect
  | some e => [Effect.glogError e]
  | none => []

/-! `handlePing` (main.go 48-50) -/

/-- An HTTP request. -/
structure Request where
  method : String
  path : String
  headers : List (String × String)
  body : List Nat
deriving DecidableEq, Repr

/-- A call on an `http.ResponseWriter`. -/
inductive ResponseCall
  | setHeader (key value : String)
  | writeHeader (statusCode : Nat)
  | write (bytes : List Nat)
deriving DecidableEq, Repr

/-- The conversion `[]byte(s)`: the UTF-8 bytes of `s`. -/
def bytesOf (s : String) : List Nat :=
  s.toUTF8.data.toList.map UInt8.toNat

/-- The function `handlePing`: the calls it makes on `w`, in order. -/
def handlePing (_r : Request) : List ResponseCall :=
  [ResponseCall.write (bytesOf "pong")]

/-! `App.testLoop` (main.go 29-46) -/

/-- The label selector of the listing (main.go 32). -/
def labelSelector : String := "app=cluster-latency"

/-- The inner loop `for _, pod := range podList.Items` (main.go 39-44). -/
def rangeItems : List Pod → List Effect
  | [] => []
  | pod :: rest =>
    Effect.glogInfo ("Pod name: " ++ pod.Name) ::
    Effect.glogInfo ("Pod IP: " ++ pod.Status.PodIP) ::
    rangeItems rest

/-- One iteration of the outer `for` (main.go 31-44), the `n`-th one: its
effects, and the panic that ended it if one did.  With a nil `kubeClient`
the call `a.kubeClient.CoreV1()` (main.go 31) panics and no listing is asked
for. -/
def testLoopBody (a : App) (env : Env) (n : Nat) : List Effect × Option PanicValue :=
  match a.kubeClient with
  | none => ([], some PanicValue.nilDereference)
  | some client =>
    let query := Effect.podsList (some client) a.kubeNamespace labelSelector
    match env.podsList n (some client) a.kubeNamespace labelSelector with
    | (_, some err) => ([query, Effect.glogError err], some (PanicValue.error err))
    | (none, none) => ([query, Effect.glogInfoPodList none], some PanicValue.nilDereference)
    | (some podList, none) =>
      (query :: Effect.glogInfoPodList (some podList) :: rangeItems podList.Items, none)

/-- Result of running a function: its effects and how it stopped. -/
structure Result where
  trace : List Effect
  outcome : Outcome
deriving DecidableEq, Repr

/-- The loop from its `n`-th iteration on, for at most `fuel` iterations.
`Outcome.running` says the loop was still going when the bound was reached;
the loop has no other way out than a panic. -/
def testLoopFrom (a : App) (env : Env) : Nat → Nat → Result
  | 0, _ => ⟨[], Outcome.running⟩
  | fuel + 1, n =>
    match testLoopBody a env n with
    | (t, some p) => ⟨t, Outcome.panicked p⟩
    | (t, none) =>
      let r := testLoopFrom a env fuel (n + 1)
      ⟨t ++ r.trace, r.outcome⟩

/-- The method `testLoop`, observed for at most `fuel` iterations. -/
def testLoop (a : App) (env : Env) (fuel : Nat) : Result :=
  testLoopFrom a env fuel 0

/-! `App.Run` (main.go 57-159) -/

/-- The composite literal that initialises the local variable `App`
(main.go 58-80): the three metric vectors, every other field zero. -/
def newApp : App :=
  { App.zero with
    metricDownloadProbeSize := some
      { kind := MetricKind.gaugeVec, Name := "download_probe_size",
        Help := "The size of the download probe", labels := ["url"] },
    metricDownloadDurations := some
      { kind := MetricKind.summaryVec, Name := "download_duration",
        Help := "The duration of the download", labels := ["url"] },
    metricPingDurations := some
      { kind := MetricKind.summaryVec, Name := "ping_duration",
        Help := "The duration of the ping", labels := ["url"] } }

/-- The label key read from the node (main.go 127). -/
def zoneLabel : String := "failure-domain.beta.kubernetes.io/zone"

/-- Result of `Run`: its effects, how it stopped, and the value of the local
variable `App` at that point. -/
structure RunResult where
  trace : List Effect
  outcome : Outcome
  app : App
deriving DecidableEq, Repr

/-- Lines 135-157 of `Run`: the service lookup, metric registration, handler
installation and the start of the test loop.  `a` is the receiver, `app` the
local variable `App`, `t` the effects so far.  With a nil `clientset` the
call `clientset.CoreV1()` (main.go 136) panics. -/
def runService (a : App) (env : Env) (app : App) (clientset : Option Clientset)
    (kubeNamespace : String) (t : List Effect) : RunResult :=
  match clientset with
  | none => ⟨t, Outcome.panicked PanicValue.nilDereference, app⟩
  | some client =>
    let svc := env.servicesGet (some client) kubeNamespace "cluster-latency"
    let t1 := t ++ [Effect.servicesGet (some client) kubeNamespace "cluster-latency"]
    match svc with
    | (_, some err) =>
      ⟨t1 ++ [Effect.glogError err], Outcome.panicked (PanicValue.error err), app⟩
    | (none, none) => ⟨t1, Outcome.panicked PanicValue.nilDereference, app⟩
    | (some service, none) =>
      let serviceName := service.Name
      match service.Spec.Ports with
      | [] => ⟨t1, Outcome.panicked (PanicValue.indexOutOfRange 0 0), app⟩
      | port0 :: _ =>
        let servicePort := port0.Port
        ⟨t1 ++
          [ Effect.glogInfo ("Service name: " ++ serviceName),
            Effect.glogInfo ("Service port: " ++ toString servicePort),
            Effect.mustRegister app.metricDownloadProbeSize,
            Effect.mustRegister app.metricDownloadDurations,
            Effect.mustRegister app.metricPingDurations,
            Effect.glogInfo ("Starting web server on port " ++ toString servicePort),
            Effect.httpHandle "/metrics" Handler.promhttp,
            Effect.httpHandle "/ping" Handler.handlePing,
            Effect.glogInfo "Starting test loop",
            Effect.goTestLoop a ],
          Outcome.returned, app⟩

/-- Lines 122-133 of `Run`, then the rest: the node lookup and the zone
label.  With a nil `clientset` the call `clientset.CoreV1()` (main.go 123)
panics and no node is asked for. -/
def runZone (a : App) (env : Env) (app : App) (clientset : Option Clientset)
    (kubeNamespace kubeNodeName : String) (t : List Effect) : RunResult :=
  match clientset with
  | none => ⟨t, Outcome.panicked PanicValue.nilDereference, app⟩
  | some client =>
    let node := env.nodesGet (some client) kubeNodeName
    let t1 := t ++ [Effect.nodesGet (some client) kubeNodeName] ++ logIfErr node.2
    match node.1 with
    | none => ⟨t1, Outcome.panicked PanicValue.nilDereference, app⟩
    | some nodeSpec =>
      let podZone := mapIndex nodeSpec.Labels zoneLabel
      if podZone = "" then
        ⟨t1 ++ [Effect.glogFatal "Pod zone is required"],
          Outcome.fatal "Pod zone is required", app⟩
      else
        let app1 := { app with kubePodZone := podZone }
        runService a env app1 (some client) kubeNamespace
          (t1 ++ [Effect.glogInfo ("Pod zone: " ++ podZone)])

/-- Lines 93-133 of `Run`, then the rest: the three environment variables.
`cs` is what `kubernetes.NewForConfig` returned, `t` the effects so far. -/
def runIdentity (a : App) (env : Env) (app0 : App) (cs : Option Clientset × Option Err)
    (t : List Effect) : RunResult :=
  let clientset := cs.1
  let t1 := t ++ logIfErr cs.2
  let app1 := { app0 with kubeClient := clientset }
  let kubeNamespace := env.getenv "KUBE_NAMESPACE"
  let t2 := t1 ++ [Effect.getenv "KUBE_NAMESPACE"]
  if kubeNamespace = "" then
    ⟨t2 ++ [Effect.glogFatal "KUBE_NAMESPACE env var is required"],
      Outcome.fatal "KUBE_NAMESPACE env var is required", app1⟩
  else
    let app2 := { app1 with kubeNamespace := kubeNamespace }
    let t3 := t2 ++ [Effect.glogInfo ("Kube namespace: " ++ kubeNamespace)]
    let kubePodName := env.getenv "KUBE_POD_NAME"
    let t4 := t3 ++ [Effect.getenv "KUBE_POD_NAME"]
    if kubePodName = "" then
      ⟨t4 ++ [Effect.glogFatal "KUBE_POD_NAME env var is required"],
        Outcome.fatal "KUBE_POD_NAME env var is required", app2⟩
    else
      let app3 := { app2 with kubePodName := kubePodName }
      let t5 := t4 ++ [Effect.glogInfo ("Kube pod name: " ++ kubePodName)]
      let kubeNodeName := env.getenv "KUBE_NODE_NAME"
      let t6 := t5 ++ [Effect.getenv "KUBE_NODE_NAME"]
      if kubeNodeName = "" then
        ⟨t6 ++ [Effect.glogFatal "KUBE_NODE_NAME env var is required"],
          Outcome.fatal "KUBE_NODE_NAME env var is required", app3⟩
      else
        let app4 := { app3 with kubeNodeName := kubeNodeName }
        runZone a env app4 clientset kubeNamespace kubeNodeName
          (t6 ++ [Effect.glogInfo ("Kube node name: " ++ kubeNodeName)])

/-- The method `Run`, called on the receiver `a`.  When
`clientcmd.BuildConfigFromFlags` returns a nil configuration, the error is
logged and `kubernetes.NewForConfig(config)` (main.go 89) is called with it
and panics on the dereference. -/
def Run (a : App) (env : Env) : RunResult :=
  let app0 := newApp
  let config := env.buildConfigFromFlags "" ""
  let t0 := [Effect.glogInfo "Starting cluster-latency", Effect.buildConfigFromFlags "" ""]
    ++ logIfErr config.2
  match config.1 with
  | none => ⟨t0 ++ [Effect.newForConfig none], Outcome.panicked PanicValue.nilDereference, app0⟩
  | some cfg =>
    runIdentity a env app0 (env.newForConfig (some cfg)) (t0 ++ [Effect.newForConfig (some cfg)])

/-! Observations on effect sequences -/

/-- The startup steps that come after identity resolution: a metric
registration, a handler installation, a listen, or the start of the test
loop. -/
def Effect.isLaterStartupStep : Effect → Bool
  | Effect.mustRegister _ => true
  | Effect.httpHandle _ _ => true
  | Effect.listenAndServe _ => true
  | Effect.goTestLoop _ => true
  | _ => false

/-- A membership (pod list) query. -/
def Effect.isQuery : Effect → Bool
  | Effect.podsList _ _ _ => true
  | _ => false

/-- A wait. -/
def Effect.isSleep : Effect → Bool
  | Effect.sleep => true
  | _ => false

/-- A listen/serve. -/
def Effect.isListen : Effect → Bool
  | Effect.listenAndServe _ => true
  | _ => false

/-- A ping probe. -/
def Effect.isPingProbe : Effect → Bool
  | Effect.pingProbe _ => true
  | _ => false

/-- A download probe. -/
def Effect.isDownloadProbe : Effect → Bool
  | Effect.downloadProbe _ => true
  | _ => false

/-- An observation recorded into a metric series. -/
def Effect.isObserve : Effect → Bool
  | Effect.observe _ => true
  | _ => false

/-- Scan of an effect sequence for the property "between every two
consecutive queries there is a wait".  `waited` tells whether a wait was seen
since the last query (true before the first query). -/
def queriesSeparated : Bool → List Effect → Bool
  | _, [] => true
  | waited, e :: rest =>
    if e.isQuery then waited && queriesSeparated false rest
    else if e.isSleep then queriesSeparated true rest
    else queriesSeparated waited rest

/-! Concrete environments -/

/-- An environment in which startup succeeds: all three variables set, the
node carries a zone label, the service has one port, listings are empty. -/
def envOk : Env :=
  { buildConfigFromFlags := fun _ _ => (some ⟨"https://10.0.0.1"⟩, none),
    newForConfig := fun _ => (some ⟨1⟩, none),
    getenv := fun k =>
      if k = "KUBE_NAMESPACE" then "default"
      else if k = "KUBE_POD_NAME" then "cl-0"
      else if k = "KUBE_NODE_NAME" then "node-a"
      else "",
    nodesGet := fun _ _ => (some ⟨[(zoneLabel, "zone-x")]⟩, none),
    servicesGet := fun _ _ _ => (some ⟨"cluster-latency", ⟨[⟨8080⟩]⟩⟩, none),
    podsList := fun _ _ _ _ => (some ⟨[]⟩, none) }

/-- A node lookup that fails with an error and still hands back a node
object carrying a zone label (a response whose body decoded in part). -/
def envNodeErr : Env :=
  { envOk with
    nodesGet := fun _ _ => (some ⟨[(zoneLabel, "zone-x")]⟩, some ⟨"decode error"⟩) }

/-- The service lookup succeeds with a service that has no port. -/
def envNoPorts : Env :=
  { envOk with servicesGet := fun _ _ _ => (some ⟨"cluster-latency", ⟨[]⟩⟩, none) }

/-- The variable `KUBE_POD_NAME` is not set. -/
def envNoPodName : Env :=
  { envOk with
    getenv := fun k =>
      if k = "KUBE_NAMESPACE" then "default"
      else if k = "KUBE_NODE_NAME" then "node-a"
      else "" }

/-- The first listing succeeds with two pods, the second one fails. -/
def envTwoPods : Env :=
  { envOk with
    podsList := fun n _ _ _ =>
      if n = 0 then (some ⟨[⟨"cl-0", ⟨"10.1.0.4"⟩⟩, ⟨"cl-1", ⟨"10.1.0.5"⟩⟩]⟩, none)
      else (none, some ⟨"connection refused"⟩) }

/-- Every listing fails. -/
def envListErr : Env :=
  { envOk with podsList := fun _ _ _ _ => (none, some ⟨"connection refused"⟩) }

/-- No client configuration can be built (nil configuration and an error),
and no environment variable is set. -/
def envNoConfig : Env :=
  { envOk with
    buildConfigFromFlags := fun _ _ => (none, some ⟨"no configuration"⟩),
    getenv := fun _ => "" }

/-- A receiver with a client and a namespace of its own, other than the ones
`Run` resolves in `envOk`. -/
def appOther : App :=
  { App.zero with kubeClient := some ⟨7⟩, kubeNamespace := "other" }

/-- An `App` whose client and namespace are set. -/
def appReady : App :=
  { newApp with kubeClient := some ⟨1⟩, kubeNamespace := "default" }

/-- A log entry. -/
def Effect.isLog : Effect → Bool
  | Effect.glogInfo _ => true
  | Effect.glogInfoPodList _ => true
  | Effect.glogError _ => true
  | Effect.glogFatal _ => true
  | _ => false

/-- The two log entries the loop writes for one pod. -/
def podEntries (pod : Pod) : List Effect :=
  [Effect.glogInfo ("Pod name: " ++ pod.Name), Effect.glogInfo ("Pod IP: " ++ pod.Status.PodIP)]


/-! Lemmas on `testLoop` -/

theorem rangeItems_all_log (items : List Pod) :
    (rangeItems items).all Effect.isLog = true := by
  induction items with
  | nil => rfl
  | cons pod rest ih => simpa [rangeItems, Effect.isLog] using ih

theorem rangeItems_eq_flatMap (items : List Pod) :
    rangeItems items = items.flatMap podEntries := by
  induction items with
  | nil => rfl
  | cons pod rest ih => simp [rangeItems, podEntries, ih]

theorem rangeItems_length (items : List Pod) :
    (rangeItems items).length = 2 * items.length := by
  induction items with
  | nil => rfl
  | cons pod rest ih => simp [rangeItems, ih]; omega

theorem filter_eq_nil_of_all_log (p : Effect → Bool) (hp : ∀ e, e.isLog = true → p e = false)
    (l : List Effect) (hl : l.all Effect.isLog = true) : l.filter p = [] := by
  induction l with
  | nil => rfl
  | cons e rest ih =>
    simp only [List.all_cons, Bool.and_eq_true] at hl
    simp [List.filter_cons, hp e hl.1, ih hl.2]

theorem isQuery_of_isLog (e : Effect) (h : e.isLog = true) : e.isQuery = false := by
  cases e <;> simp_all [Effect.isLog, Effect.isQuery]

theorem isPingProbe_of_isLog (e : Effect) (h : e.isLog = true) : e.isPingProbe = false := by
  cases e <;> simp_all [Effect.isLog, Effect.isPingProbe]

theorem isDownloadProbe_of_isLog (e : Effect) (h : e.isLog = true) :
    e.isDownloadProbe = false := by
  cases e <;> simp_all [Effect.isLog, Effect.isDownloadProbe]

theorem isObserve_of_isLog (e : Effect) (h : e.isLog = true) : e.isObserve = false := by
  cases e <;> simp_all [Effect.isLog, Effect.isObserve]

/-- With a nil client the iteration panics before any listing. -/
theorem testLoopBody_nil_client (a : App) (env : Env) (n : Nat) (hc : a.kubeClient = none) :
    testLoopBody a env n = ([], some PanicValue.nilDereference) := by
  simp [testLoopBody, hc]

/-- A listing that comes back without error and non-nil: the effects of the
iteration, and no panic. -/
theorem testLoopBody_ok (a : App) (env : Env) (n : Nat) (podList : PodList)
    (hc : a.kubeClient ≠ none)
    (h : env.podsList n a.kubeClient a.kubeNamespace labelSelector = (some podList, none)) :
    testLoopBody a env n =
      (Effect.podsList a.kubeClient a.kubeNamespace labelSelector ::
        Effect.glogInfoPodList (some podList) :: rangeItems podList.Items, none) := by
  cases hk : a.kubeClient with
  | none => exact absurd hk hc
  | some c =>
    rw [hk] at h
    simp [testLoopBody, hk, h]

/-- A listing that comes back with an error: logged, then the panic. -/
theorem testLoopBody_err (a : App) (env : Env) (n : Nat) (e : Err)
    (hc : a.kubeClient ≠ none)
    (h : (env.podsList n a.kubeClient a.kubeNamespace labelSelector).2 = some e) :
    testLoopBody a env n =
      ([Effect.podsList a.kubeClient a.kubeNamespace labelSelector, Effect.glogError e],
        some (PanicValue.error e)) := by
  cases hk : a.kubeClient with
  | none => exact absurd hk hc
  | some c =>
    rw [hk] at h
    rcases hq : env.podsList n (some c) a.kubeNamespace labelSelector with ⟨l, err⟩
    rw [hq] at h
    simp only at h
    subst h
    simp [testLoopBody, hk, hq]

/-- With a client, every iteration starts with the query. -/
theorem testLoopBody_head (a : App) (env : Env) (n : Nat) (hc : a.kubeClient ≠ none) :
    ∃ rest, (testLoopBody a env n).1 =
      Effect.podsList a.kubeClient a.kubeNamespace labelSelector :: rest := by
  cases hk : a.kubeClient with
  | none => exact absurd hk hc
  | some c =>
    rcases hq : env.podsList n (some c) a.kubeNamespace labelSelector with ⟨l, err⟩
    cases err with
    | some e => exact ⟨_, by simp [testLoopBody, hk, hq]; rfl⟩
    | none =>
      cases l with
      | none => exact ⟨_, by simp [testLoopBody, hk, hq]; rfl⟩
      | some podList => exact ⟨_, by simp [testLoopBody, hk, hq]; rfl⟩

theorem testLoopFrom_error (a : App) (env : Env) (e : Err) (hc : a.kubeClient ≠ none) :
    ∀ (n fuel k : Nat),
      (∀ i, i < n → ∃ l, env.podsList (k + i) a.kubeClient a.kubeNamespace labelSelector
        = (some l, none)) →
      (env.podsList (k + n) a.kubeClient a.kubeNamespace labelSelector).2 = some e →
      n < fuel →
      (testLoopFrom a env fuel k).outcome = Outcome.panicked (PanicValue.error e) ∧
      (testLoopFrom a env fuel k).trace.getLast? = some (Effect.glogError e) ∧
      ((testLoopFrom a env fuel k).trace.filter Effect.isQuery).length = n + 1 := by
  intro n
  induction n with
  | zero =>
    intro fuel k _ herr hfuel
    obtain ⟨f, rfl⟩ : ∃ f, fuel = f + 1 := ⟨fuel - 1, by omega⟩
    have hb := testLoopBody_err a env k e hc (by simpa using herr)
    simp [testLoopFrom, hb, Effect.isQuery]
  | succ n ih =>
    intro fuel k hok herr hfuel
    obtain ⟨f, rfl⟩ : ∃ f, fuel = f + 1 := ⟨fuel - 1, by omega⟩
    obtain ⟨l, hl⟩ := hok 0 (by omega)
    have hb := testLoopBody_ok a env k l hc (by simpa using hl)
    have hrec := ih f (k + 1)
      (fun i hi => by
        obtain ⟨l2, h2⟩ := hok (i + 1) (by omega)
        exact ⟨l2, by rw [← h2]; congr 1; omega⟩)
      (by rw [← herr]; congr 2; omega) (by omega)
    obtain ⟨h1, h2, h3⟩ := hrec
    have hne : (testLoopFrom a env f (k + 1)).trace ≠ [] := by
      intro hnil
      rw [hnil] at h2
      simp at h2
    have hq : (rangeItems l.Items).filter Effect.isQuery = [] :=
      filter_eq_nil_of_all_log _ isQuery_of_isLog _ (rangeItems_all_log _)
    refine ⟨?_, ?_, ?_⟩
    · simp [testLoopFrom, hb, h1]
    · simp only [testLoopFrom, hb]
      rw [List.getLast?_append_of_ne_nil _ hne]
      exact h2
    · simp only [testLoopFrom, hb, List.filter_append, List.length_append]
      rw [h3]
      simp [List.filter_cons, Effect.isQuery, hq]
      omega

/-- The effects of the iterations whose listings are `ls`, one after the
other, and the query of the next iteration right behind them. -/
theorem testLoopFrom_listings (a : App) (env : Env) (hc : a.kubeClient ≠ none) :
    ∀ (ls : List PodList) (fuel k : Nat),
      (∀ i l, ls[i]? = some l →
        env.podsList (k + i) a.kubeClient a.kubeNamespace labelSelector = (some l, none)) →
      ls.length < fuel →
      ∃ rest, (testLoopFrom a env fuel k).trace =
        ls.flatMap (fun l =>
          Effect.podsList a.kubeClient a.kubeNamespace labelSelector ::
          Effect.glogInfoPodList (some l) :: rangeItems l.Items) ++
        Effect.podsList a.kubeClient a.kubeNamespace labelSelector :: rest := by
  intro ls
  induction ls with
  | nil =>
    intro fuel k _ hfuel
    obtain ⟨f, rfl⟩ : ∃ f, fuel = f + 1 := ⟨fuel - 1, by simp at hfuel; omega⟩
    obtain ⟨r, hr⟩ := testLoopBody_head a env k hc
    unfold testLoopFrom
    rcases hbody : testLoopBody a env k with ⟨t, p⟩
    rw [hbody] at hr
    simp only at hr
    subst hr
    cases p with
    | some p => exact ⟨r, by simp⟩
    | none => exact ⟨r ++ (testLoopFrom a env f (k + 1)).trace, by simp⟩
  | cons l ls ih =>
    intro fuel k hok hfuel
    obtain ⟨f, rfl⟩ : ∃ f, fuel = f + 1 := ⟨fuel - 1, by simp at hfuel; omega⟩
    have hl := hok 0 l (by simp)
    have hb := testLoopBody_ok a env k l hc (by simpa using hl)
    obtain ⟨rest, hrest⟩ := ih f (k + 1)
      (fun i l2 hi => by
        have h2 := hok (i + 1) l2 (by simpa using hi)
        rw [← h2]; congr 1; omega)
      (by simp at hfuel; omega)
    refine ⟨rest, ?_⟩
    simp only [testLoopFrom, hb, hrest, List.flatMap_cons]
    simp

/-! `handlePing` -/

/-- C10: for every request, `handlePing` makes exactly one call on the
response writer, a write of the four bytes of "pong" (112, 111, 110, 103);
it sets no header and no status code, and the calls are the same for any
two requests. -/
theorem handlePing_writes_pong_once (r r2 : Request) :
    handlePing r = [ResponseCall.write [112, 111, 110, 103]] ∧
    (handlePing r).length = 1 ∧
    bytesOf "pong" = [112, 111, 110, 103] ∧
    handlePing r = handlePing r2 := by
  refine ⟨?_, rfl, ?_, rfl⟩
  · simp only [handlePing]
    decide
  · decide

/-! `testLoop` -/

/-- C1 (as stated, refuted): with a listing that fails, `testLoop` logs the
error and ends in a panic carrying it; there is one query and no later
iteration, whatever the bound. -/
theorem testLoop_listing_error_panics :
    testLoop appReady envListErr 5 =
      ⟨[Effect.podsList (some ⟨1⟩) "default" "app=cluster-latency",
        Effect.glogError ⟨"connection refused"⟩],
       Outcome.panicked (PanicValue.error ⟨"connection refused"⟩)⟩ := by
  decide

/-- C1 (amended): for every `App` (its client not nil, as a query that
returns needs one) and every error `e` returned by the `n`-th membership
query (the earlier ones having succeeded), `testLoop` logs `e` and panics
with it: for every bound above `n` the outcome is that panic, the last effect
is the log of `e`, and exactly `n + 1` queries were issued, so no iteration
follows the failed one. -/
theorem testLoop_error_is_fatal (a : App) (env : Env) (n fuel : Nat) (e : Err)
    (hc : a.kubeClient ≠ none)
    (hok : ∀ i, i < n → ∃ l, env.podsList i a.kubeClient a.kubeNamespace labelSelector
      = (some l, none))
    (herr : (env.podsList n a.kubeClient a.kubeNamespace labelSelector).2 = some e)
    (hfuel : n < fuel) :
    (testLoop a env fuel).outcome = Outcome.panicked (PanicValue.error e) ∧
    (testLoop a env fuel).trace.getLast? = some (Effect.glogError e) ∧
    ((testLoop a env fuel).trace.filter Effect.isQuery).length = n + 1 := by
  unfold testLoop
  exact testLoopFrom_error a env e hc n fuel 0
    (fun i hi => by simpa using hok i hi) (by simpa using herr) hfuel

/-- Witness of `testLoop_error_is_fatal`: in `envTwoPods` the first listing
succeeds and the second one fails. -/
theorem testLoop_error_is_fatal_witness :
    (testLoop appReady envTwoPods 7).outcome
      = Outcome.panicked (PanicValue.error ⟨"connection refused"⟩) ∧
    (testLoop appReady envTwoPods 7).trace.getLast?
      = some (Effect.glogError ⟨"connection refused"⟩) ∧
    ((testLoop appReady envTwoPods 7).trace.filter Effect.isQuery).length = 1 + 1 :=
  testLoop_error_is_fatal appReady envTwoPods 1 7 ⟨"connection refused"⟩ (by decide)
    (fun i hi => by
      have h0 : i = 0 := by omega
      subst h0
      exact ⟨_, rfl⟩)
    rfl (by decide)

/-- C3 (as stated, refuted): a listing of two pods; the iteration performs
no ping probe, no download probe and records no observation. -/
theorem testLoopBody_two_pods_no_probe :
    envTwoPods.podsList 0 appReady.kubeClient appReady.kubeNamespace labelSelector
      = (some ⟨[⟨"cl-0", ⟨"10.1.0.4"⟩⟩, ⟨"cl-1", ⟨"10.1.0.5"⟩⟩]⟩, none) ∧
    ((testLoopBody appReady envTwoPods 0).1.filter Effect.isPingProbe).length = 0 ∧
    ((testLoopBody appReady envTwoPods 0).1.filter Effect.isDownloadProbe).length = 0 ∧
    ((testLoopBody appReady envTwoPods 0).1.filter Effect.isObserve).length = 0 ∧
    (testLoopBody appReady envTwoPods 0).1 =
      [Effect.podsList (some ⟨1⟩) "default" "app=cluster-latency",
       Effect.glogInfoPodList (some ⟨[⟨"cl-0", ⟨"10.1.0.4"⟩⟩, ⟨"cl-1", ⟨"10.1.0.5"⟩⟩]⟩),
       Effect.glogInfo "Pod name: cl-0", Effect.glogInfo "Pod IP: 10.1.0.4",
       Effect.glogInfo "Pod name: cl-1", Effect.glogInfo "Pod IP: 10.1.0.5"] := by
  decide

/-- C3 (amended): for every listing returned to `testLoop` (no error, non-nil;
the client of the `App` not nil, as a query that returns needs one), the
iteration is the query, the log of the listing, and for every pod, in
listing order, the log of its name followed by the log of its IP: `2 * n`
pod entries for `n` pods; it performs no ping probe, no download probe and
records no observation, and it does not panic. -/
theorem testLoopBody_logs_each_pod (a : App) (env : Env) (n : Nat) (podList : PodList)
    (hc : a.kubeClient ≠ none)
    (h : env.podsList n a.kubeClient a.kubeNamespace labelSelector = (some podList, none)) :
    (testLoopBody a env n).1 =
      Effect.podsList a.kubeClient a.kubeNamespace "app=cluster-latency" ::
      Effect.glogInfoPodList (some podList) ::
      podList.Items.flatMap (fun pod =>
        [Effect.glogInfo ("Pod name: " ++ pod.Name),
         Effect.glogInfo ("Pod IP: " ++ pod.Status.PodIP)]) ∧
    (testLoopBody a env n).1.length = 2 + 2 * podList.Items.length ∧
    (testLoopBody a env n).1.filter Effect.isPingProbe = [] ∧
    (testLoopBody a env n).1.filter Effect.isDownloadProbe = [] ∧
    (testLoopBody a env n).1.filter Effect.isObserve = [] ∧
    (testLoopBody a env n).2 = none := by
  have hlog := rangeItems_all_log podList.Items
  rw [testLoopBody_ok a env n podList hc h]
  refine ⟨?_, ?_, ?_, ?_, ?_, rfl⟩
  · rw [rangeItems_eq_flatMap]
    rfl
  · simp [rangeItems_length]
    omega
  · simp [List.filter_cons, Effect.isPingProbe,
      filter_eq_nil_of_all_log _ isPingProbe_of_isLog _ hlog]
  · simp [List.filter_cons, Effect.isDownloadProbe,
      filter_eq_nil_of_all_log _ isDownloadProbe_of_isLog _ hlog]
  · simp [List.filter_cons, Effect.isObserve,
      filter_eq_nil_of_all_log _ isObserve_of_isLog _ hlog]

/-- Witness of `testLoopBody_logs_each_pod`: the two-pod listing. -/
theorem testLoopBody_logs_each_pod_witness :
    (testLoopBody appReady envTwoPods 0).1 =
      Effect.podsList appReady.kubeClient appReady.kubeNamespace "app=cluster-latency" ::
      Effect.glogInfoPodList (some ⟨[⟨"cl-0", ⟨"10.1.0.4"⟩⟩, ⟨"cl-1", ⟨"10.1.0.5"⟩⟩]⟩) ::
      (PodList.mk [⟨"cl-0", ⟨"10.1.0.4"⟩⟩, ⟨"cl-1", ⟨"10.1.0.5"⟩⟩]).Items.flatMap (fun pod =>
        [Effect.glogInfo ("Pod name: " ++ pod.Name),
         Effect.glogInfo ("Pod IP: " ++ pod.Status.PodIP)]) ∧
    (testLoopBody appReady envTwoPods 0).1.length
      = 2 + 2 * (PodList.mk [⟨"cl-0", ⟨"10.1.0.4"⟩⟩, ⟨"cl-1", ⟨"10.1.0.5"⟩⟩]).Items.length ∧
    (testLoopBody appReady envTwoPods 0).1.filter Effect.isPingProbe = [] ∧
    (testLoopBody appReady envTwoPods 0).1.filter Effect.isDownloadProbe = [] ∧
    (testLoopBody appReady envTwoPods 0).1.filter Effect.isObserve = [] ∧
    (testLoopBody appReady envTwoPods 0).2 = none :=
  testLoopBody_logs_each_pod appReady envTwoPods 0
    ⟨[⟨"cl-0", ⟨"10.1.0.4"⟩⟩, ⟨"cl-1", ⟨"10.1.0.5"⟩⟩]⟩ (by decide) rfl

/-- C6 (as stated, refuted): two successful listings in a row; the second
query follows the log of the first listing with no wait in between. -/
theorem testLoop_queries_back_to_back :
    (testLoop appReady envOk 2).trace =
      [Effect.podsList (some ⟨1⟩) "default" "app=cluster-latency",
       Effect.glogInfoPodList (some ⟨[]⟩),
       Effect.podsList (some ⟨1⟩) "default" "app=cluster-latency",
       Effect.glogInfoPodList (some ⟨[]⟩)] ∧
    queriesSeparated true (testLoop appReady envOk 2).trace = false := by
  decide

/-- The second of two queries with only log entries in between is not
preceded by a wait. -/
theorem queriesSeparated_logs_query (logs rest : List Effect) (q : Effect) (w : Bool)
    (hlogs : logs.all Effect.isLog = true) (hq : q.isQuery = true) :
    queriesSeparated w (logs ++ q :: rest) = (w && queriesSeparated false rest) := by
  induction logs with
  | nil => simp [queriesSeparated, hq]
  | cons e logs ih =>
    simp only [List.all_cons, Bool.and_eq_true] at hlogs
    have h1 : e.isQuery = false := isQuery_of_isLog e hlogs.1
    have h2 : e.isSleep = false := by
      have := hlogs.1
      cases e <;> simp_all [Effect.isLog, Effect.isSleep]
    simp [queriesSeparated, h1, h2, ih hlogs.2]

/-- C6 (amended): `testLoop` puts no wait of its own between membership
queries.  For every `App` with a client and every environment in which the
first listings are `ls` (each returned without error), and for every bound
above their number, the effects of `testLoop` are, for each of these listings
in turn, the query, the log entry of the listing and the two log entries of
each of its pods, and right behind the last of them the next query; so when
at least one listing succeeded, the next query follows it with no wait in
between.  How long a listing call takes inside the client library is not
part of the statement. -/
theorem testLoop_next_query_follows_at_once (a : App) (env : Env) (ls : List PodList)
    (fuel : Nat) (hc : a.kubeClient ≠ none)
    (hok : ∀ i l, ls[i]? = some l →
      env.podsList i a.kubeClient a.kubeNamespace labelSelector = (some l, none))
    (hfuel : ls.length < fuel) :
    (∃ rest, (testLoop a env fuel).trace =
      ls.flatMap (fun l =>
        Effect.podsList a.kubeClient a.kubeNamespace "app=cluster-latency" ::
        Effect.glogInfoPodList (some l) ::
        l.Items.flatMap (fun pod =>
          [Effect.glogInfo ("Pod name: " ++ pod.Name),
           Effect.glogInfo ("Pod IP: " ++ pod.Status.PodIP)])) ++
      Effect.podsList a.kubeClient a.kubeNamespace "app=cluster-latency" :: rest) ∧
    (ls ≠ [] → queriesSeparated true (testLoop a env fuel).trace = false) := by
  obtain ⟨rest, hrest⟩ := testLoopFrom_listings a env hc ls fuel 0
    (fun i l hi => by simpa using hok i l hi) hfuel
  refine ⟨⟨rest, ?_⟩, ?_⟩
  · unfold testLoop
    rw [hrest]
    have hfun : (fun l : PodList =>
        Effect.podsList a.kubeClient a.kubeNamespace labelSelector ::
        Effect.glogInfoPodList (some l) :: rangeItems l.Items) =
      (fun l : PodList =>
        Effect.podsList a.kubeClient a.kubeNamespace "app=cluster-latency" ::
        Effect.glogInfoPodList (some l) ::
        l.Items.flatMap (fun pod =>
          [Effect.glogInfo ("Pod name: " ++ pod.Name),
           Effect.glogInfo ("Pod IP: " ++ pod.Status.PodIP)])) := by
      funext l
      rw [rangeItems_eq_flatMap]
      rfl
    rw [hfun]
    rfl
  · intro hne
    unfold testLoop
    rw [hrest]
    cases ls with
    | nil => exact absurd rfl hne
    | cons l ls2 =>
      have hnext : ∃ r2, ls2.flatMap (fun l =>
            Effect.podsList a.kubeClient a.kubeNamespace labelSelector ::
            Effect.glogInfoPodList (some l) :: rangeItems l.Items) ++
          Effect.podsList a.kubeClient a.kubeNamespace labelSelector :: rest =
          Effect.podsList a.kubeClient a.kubeNamespace labelSelector :: r2 := by
        cases ls2 with
        | nil => exact ⟨rest, rfl⟩
        | cons l2 ls3 => exact ⟨_, by simp only [List.flatMap_cons, List.cons_append]; rfl⟩
      obtain ⟨r2, hr2⟩ := hnext
      have hlogs : (Effect.glogInfoPodList (some l) :: rangeItems l.Items).all Effect.isLog
          = true := by
        simp only [List.all_cons, Effect.isLog, Bool.true_and]
        exact rangeItems_all_log l.Items
      have hsep := queriesSeparated_logs_query
        (Effect.glogInfoPodList (some l) :: rangeItems l.Items) r2
        (Effect.podsList a.kubeClient a.kubeNamespace labelSelector) false hlogs rfl
      have hfirst : queriesSeparated true
          (Effect.podsList a.kubeClient a.kubeNamespace labelSelector ::
            ((Effect.glogInfoPodList (some l) :: rangeItems l.Items) ++
              Effect.podsList a.kubeClient a.kubeNamespace labelSelector :: r2)) = false := by
        rw [queriesSeparated]
        simp only [Effect.isQuery, if_true, hsep]
        rfl
      rw [List.flatMap_cons, List.append_assoc, hr2]
      exact hfirst

/-- Witness of `testLoop_next_query_follows_at_once`: in `envTwoPods` the
first listing returns two pods; the second query comes right behind the log
entries of the second pod. -/
theorem testLoop_next_query_follows_at_once_witness :
    (∃ rest, (testLoop appReady envTwoPods 2).trace =
      [PodList.mk [⟨"cl-0", ⟨"10.1.0.4"⟩⟩, ⟨"cl-1", ⟨"10.1.0.5"⟩⟩]].flatMap (fun l =>
        Effect.podsList appReady.kubeClient appReady.kubeNamespace "app=cluster-latency" ::
        Effect.glogInfoPodList (some l) ::
        l.Items.flatMap (fun pod =>
          [Effect.glogInfo ("Pod name: " ++ pod.Name),
           Effect.glogInfo ("Pod IP: " ++ pod.Status.PodIP)])) ++
      Effect.podsList appReady.kubeClient appReady.kubeNamespace "app=cluster-latency"
        :: rest) ∧
    ([PodList.mk [⟨"cl-0", ⟨"10.1.0.4"⟩⟩, ⟨"cl-1", ⟨"10.1.0.5"⟩⟩]] ≠ [] →
      queriesSeparated true (testLoop appReady envTwoPods 2).trace = false) :=
  testLoop_next_query_follows_at_once appReady envTwoPods
    [⟨[⟨"cl-0", ⟨"10.1.0.4"⟩⟩, ⟨"cl-1", ⟨"10.1.0.5"⟩⟩]⟩] 2 (by decide)
    (fun i l hi => by
      cases i with
      | zero =>
        simp only [List.getElem?_cons_zero, Option.some.injEq] at hi
        subst hi
        rfl
      | succ j => simp at hi)
    (by decide)

/-! `Run` -/

theorem logIfErr_any_later (err : Option Err) :
    (logIfErr err).any Effect.isLaterStartupStep = false := by
  cases err <;> rfl

theorem logIfErr_any_listen (err : Option Err) :
    (logIfErr err).any Effect.isListen = false := by
  cases err <;> rfl

theorem getLast_append_some (l1 l2 : List Effect) (x : Effect)
    (h : l2.getLast? = some x) : (l1 ++ l2).getLast? = some x := by
  have hne : l2 ≠ [] := by
    intro hnil
    rw [hnil] at h
    simp at h
  rw [List.getLast?_append_of_ne_nil _ hne]
  exact h

theorem getLast_cons_some (e : Effect) (l : List Effect) (x : Effect)
    (h : l.getLast? = some x) : (e :: l).getLast? = some x :=
  getLast_append_some [e] l x h

/-- C2 (as stated, refuted): no client configuration can be built and
`KUBE_NAMESPACE` is not set.  `Run` logs the configuration error, calls
`NewForConfig` with the nil configuration and panics on the dereference: no
environment variable is read and no missing value is reported. -/
theorem Run_nil_config_panics_before_identity :
    envNoConfig.getenv "KUBE_NAMESPACE" = "" ∧
    Run App.zero envNoConfig =
      ⟨[Effect.glogInfo "Starting cluster-latency",
        Effect.buildConfigFromFlags "" "",
        Effect.glogError ⟨"no configuration"⟩,
        Effect.newForConfig none],
       Outcome.panicked PanicValue.nilDereference, newApp⟩ := by
  decide

/-- C2 (amended): when the client configuration was built (not nil) and one
of the identity values is empty (the three environment variables, or the zone
label of the node that the lookup through the created client returned), `Run`
ends in `glog.Fatal` with the message of the first empty one in the order
namespace, pod name, node name, zone; that fatal log entry is its last
effect; no metric registration, handler installation, listen or test-loop
start is among its effects; and the field of the local `App` for that value
is still empty. -/
theorem Run_missing_identity_is_fatal (a : App) (env : Env)
    (hcfg : (env.buildConfigFromFlags "" "").1 ≠ none)
    (h : env.getenv "KUBE_NAMESPACE" = "" ∨ env.getenv "KUBE_POD_NAME" = "" ∨
      env.getenv "KUBE_NODE_NAME" = "" ∨
      ∃ nodeSpec,
        (env.newForConfig (env.buildConfigFromFlags "" "").1).1 ≠ none ∧
        (env.nodesGet (env.newForConfig (env.buildConfigFromFlags "" "").1).1
          (env.getenv "KUBE_NODE_NAME")).1 = some nodeSpec ∧
        mapIndex nodeSpec.Labels "failure-domain.beta.kubernetes.io/zone" = "") :
    (Run a env).outcome = Outcome.fatal
      (if env.getenv "KUBE_NAMESPACE" = "" then "KUBE_NAMESPACE env var is required"
       else if env.getenv "KUBE_POD_NAME" = "" then "KUBE_POD_NAME env var is required"
       else if env.getenv "KUBE_NODE_NAME" = "" then "KUBE_NODE_NAME env var is required"
       else "Pod zone is required") ∧
    (Run a env).trace.getLast? = some (Effect.glogFatal
      (if env.getenv "KUBE_NAMESPACE" = "" then "KUBE_NAMESPACE env var is required"
       else if env.getenv "KUBE_POD_NAME" = "" then "KUBE_POD_NAME env var is required"
       else if env.getenv "KUBE_NODE_NAME" = "" then "KUBE_NODE_NAME env var is required"
       else "Pod zone is required")) ∧
    (Run a env).trace.any Effect.isLaterStartupStep = false ∧
    (if env.getenv "KUBE_NAMESPACE" = "" then (Run a env).app.kubeNamespace = ""
     else if env.getenv "KUBE_POD_NAME" = "" then (Run a env).app.kubePodName = ""
     else if env.getenv "KUBE_NODE_NAME" = "" then (Run a env).app.kubeNodeName = ""
     else (Run a env).app.kubePodZone = "") := by
  obtain ⟨cfg, hc⟩ : ∃ cfg, (env.buildConfigFromFlags "" "").1 = some cfg := by
    cases hk : (env.buildConfigFromFlags "" "").1 with
    | none => exact absurd hk hcfg
    | some cfg => exact ⟨cfg, rfl⟩
  rw [hc] at h
  by_cases h1 : env.getenv "KUBE_NAMESPACE" = ""
  · simp [Run, runIdentity, hc, h1, logIfErr_any_later, Effect.isLaterStartupStep, newApp,
      App.zero]
    repeat (first
      | exact rfl
      | apply getLast_cons_some
      | apply getLast_append_some)
  by_cases h2 : env.getenv "KUBE_POD_NAME" = ""
  · simp [Run, runIdentity, hc, h1, h2, logIfErr_any_later, Effect.isLaterStartupStep, newApp,
      App.zero]
    repeat (first
      | exact rfl
      | apply getLast_cons_some
      | apply getLast_append_some)
  by_cases h3 : env.getenv "KUBE_NODE_NAME" = ""
  · simp [Run, runIdentity, hc, h1, h2, h3, logIfErr_any_later, Effect.isLaterStartupStep,
      newApp, App.zero]
    repeat (first
      | exact rfl
      | apply getLast_cons_some
      | apply getLast_append_some)
  have h4 : ∃ nodeSpec,
      (env.newForConfig (some cfg)).1 ≠ none ∧
      (env.nodesGet (env.newForConfig (some cfg)).1 (env.getenv "KUBE_NODE_NAME")).1
        = some nodeSpec ∧
      mapIndex nodeSpec.Labels "failure-domain.beta.kubernetes.io/zone" = "" := by
    rcases h with h | h | h | h
    · exact absurd h h1
    · exact absurd h h2
    · exact absurd h h3
    · exact h
  obtain ⟨nodeSpec, hclient, hnode, hzone⟩ := h4
  obtain ⟨client, hcl⟩ : ∃ client, (env.newForConfig (some cfg)).1 = some client := by
    cases hk : (env.newForConfig (some cfg)).1 with
    | none => exact absurd hk hclient
    | some client => exact ⟨client, rfl⟩
  rw [hcl] at hnode
  simp [Run, runIdentity, runZone, zoneLabel, hc, hcl, h1, h2, h3, hnode, hzone,
    logIfErr_any_later, Effect.isLaterStartupStep, newApp, App.zero]
  repeat (first
    | exact rfl
    | apply getLast_cons_some
    | apply getLast_append_some)

/-- Witness of `Run_missing_identity_is_fatal`: `KUBE_POD_NAME` is not set. -/
theorem Run_missing_identity_is_fatal_witness :
    envNoPodName.getenv "KUBE_POD_NAME" = "" ∧
    (Run App.zero envNoPodName).outcome = Outcome.fatal "KUBE_POD_NAME env var is required" ∧
    (Run App.zero envNoPodName).trace.getLast?
      = some (Effect.glogFatal "KUBE_POD_NAME env var is required") ∧
    (Run App.zero envNoPodName).trace.any Effect.isLaterStartupStep = false :=
  ⟨rfl,
   (Run_missing_identity_is_fatal App.zero envNoPodName (by decide) (Or.inr (Or.inl rfl))).1,
   (Run_missing_identity_is_fatal App.zero envNoPodName (by decide) (Or.inr (Or.inl rfl))).2.1,
   (Run_missing_identity_is_fatal App.zero envNoPodName (by decide)
      (Or.inr (Or.inl rfl))).2.2.1⟩

/-- The metric vectors handed to `prometheus.MustRegister`, in order. -/
def registrations (t : List Effect) : List (Option MetricVec) :=
  t.filterMap (fun e =>
    match e with
    | Effect.mustRegister m => some m
    | _ => none)

theorem registrations_logIfErr (err : Option Err) : registrations (logIfErr err) = [] := by
  cases err <;> rfl

theorem registrations_append (t1 t2 : List Effect) :
    registrations (t1 ++ t2) = registrations t1 ++ registrations t2 := by
  simp [registrations]

/-- The local `App` of `Run` keeps the three metric vectors of its
initialiser. -/
theorem Run_app_metrics (a : App) (env : Env) :
    (Run a env).app.metricDownloadProbeSize = newApp.metricDownloadProbeSize ∧
    (Run a env).app.metricDownloadDurations = newApp.metricDownloadDurations ∧
    (Run a env).app.metricPingDurations = newApp.metricPingDurations := by
  unfold Run runIdentity runZone runService
  simp only []
  repeat' split
  all_goals exact ⟨rfl, rfl, rfl⟩

/-- The method `Run` registers nothing, or the three metric vectors of its
initialiser in the order size, download duration, ping duration. -/
theorem Run_registrations (a : App) (env : Env) :
    registrations (Run a env).trace = [] ∨
    registrations (Run a env).trace =
      [newApp.metricDownloadProbeSize, newApp.metricDownloadDurations,
       newApp.metricPingDurations] := by
  unfold Run runIdentity runZone runService
  simp only []
  repeat' split
  all_goals simp only [registrations_append, registrations_logIfErr]
  all_goals simp [registrations, newApp]

/-- C4: the series `Run` declares (and keeps in its local `App`, whatever the
receiver and the environment) are the gauge vector `download_probe_size` and
the summary vectors `download_duration` and `ping_duration`; the three have
the same label list, of exactly one label, and pairwise distinct names; what
`Run` registers is nothing or exactly these three. -/
theorem Run_declares_three_series (a : App) (env : Env) :
    ∃ size download ping : MetricVec,
      (Run a env).app.metricDownloadProbeSize = some size ∧
      (Run a env).app.metricDownloadDurations = some download ∧
      (Run a env).app.metricPingDurations = some ping ∧
      size.kind = MetricKind.gaugeVec ∧ size.Name = "download_probe_size" ∧
      download.kind = MetricKind.summaryVec ∧ download.Name = "download_duration" ∧
      ping.kind = MetricKind.summaryVec ∧ ping.Name = "ping_duration" ∧
      size.labels = download.labels ∧ download.labels = ping.labels ∧
      size.labels.length = 1 ∧
      size.Name ≠ download.Name ∧ size.Name ≠ ping.Name ∧ download.Name ≠ ping.Name ∧
      (registrations (Run a env).trace = [] ∨
       registrations (Run a env).trace = [some size, some download, some ping]) := by
  obtain ⟨h1, h2, h3⟩ := Run_app_metrics a env
  refine ⟨⟨MetricKind.gaugeVec, "download_probe_size", "The size of the download probe", ["url"]⟩,
    ⟨MetricKind.summaryVec, "download_duration", "The duration of the download", ["url"]⟩,
    ⟨MetricKind.summaryVec, "ping_duration", "The duration of the ping", ["url"]⟩,
    ?_, ?_, ?_, rfl, rfl, rfl, rfl, rfl, rfl, rfl, rfl, rfl, by decide, by decide, by decide, ?_⟩
  · rw [h1]; rfl
  · rw [h2]; rfl
  · rw [h3]; rfl
  · exact Run_registrations a env

/-- No effect of `Run` is a listen/serve, whatever the receiver and the
environment. -/
theorem Run_never_listens (a : App) (env : Env) :
    (Run a env).trace.any Effect.isListen = false := by
  unfold Run runIdentity runZone runService
  simp only []
  repeat' split
  all_goals simp [logIfErr_any_listen, Effect.isListen]

theorem runService_returned_last (a : App) (env : Env) (app : App)
    (clientset : Option Clientset) (ns : String) (t : List Effect)
    (h : (runService a env app clientset ns t).outcome = Outcome.returned) :
    (runService a env app clientset ns t).trace.getLast? = some (Effect.goTestLoop a) := by
  unfold runService at h ⊢
  simp only [] at h ⊢
  repeat' split
  all_goals (split at h <;> simp_all)

/-- The test loop, when `Run` starts it, is started on the receiver. -/
theorem Run_goTestLoop_receiver (a : App) (env : Env)
    (h : (Run a env).outcome = Outcome.returned) :
    (Run a env).trace.getLast? = some (Effect.goTestLoop a) := by
  cases hc : (env.buildConfigFromFlags "" "").1 with
  | none => simp [Run, hc] at h
  | some cfg =>
    by_cases h1 : env.getenv "KUBE_NAMESPACE" = ""
    · simp [Run, runIdentity, hc, h1] at h
    by_cases h2 : env.getenv "KUBE_POD_NAME" = ""
    · simp [Run, runIdentity, hc, h1, h2] at h
    by_cases h3 : env.getenv "KUBE_NODE_NAME" = ""
    · simp [Run, runIdentity, hc, h1, h2, h3] at h
    cases hcl : (env.newForConfig (some cfg)).1 with
    | none => simp [Run, runIdentity, runZone, hc, h1, h2, h3, hcl] at h
    | some client =>
      cases hn : (env.nodesGet (some client) (env.getenv "KUBE_NODE_NAME")).1 with
      | none => simp [Run, runIdentity, runZone, hc, h1, h2, h3, hcl, hn] at h
      | some nodeSpec =>
        by_cases h5 : mapIndex nodeSpec.Labels zoneLabel = ""
        · simp [Run, runIdentity, runZone, hc, h1, h2, h3, hcl, hn, h5] at h
        · simp only [Run, runIdentity, runZone, hc, h1, h2, h3, hcl, hn, h5, if_false] at h ⊢
          exact runService_returned_last _ _ _ _ _ _ h

/-- C5 (the code at a failing input): in `envOk` startup succeeds and `Run`
returns; after the log entry "Starting web server on port 8080" come the two
handler registrations, the log entry "Starting test loop" and the start of
the loop, and nothing else: no effect of `Run` is a listen/serve. -/
theorem Run_success_does_not_listen :
    (Run App.zero envOk).outcome = Outcome.returned ∧
    (Run App.zero envOk).trace.drop 17 =
      [Effect.glogInfo "Starting web server on port 8080",
       Effect.httpHandle "/metrics" Handler.promhttp,
       Effect.httpHandle "/ping" Handler.handlePing,
       Effect.glogInfo "Starting test loop",
       Effect.goTestLoop App.zero] ∧
    (Run App.zero envOk).trace.any Effect.isListen = false := by
  decide

/-- C7 (the code at a failing input): the node lookup returns an error
together with a node that carries a zone label; `Run` logs the error and goes
on: it registers the three metrics, installs both handlers, starts the test
loop and returns. -/
theorem Run_node_error_proceeds :
    (envNodeErr.nodesGet (some ⟨1⟩) "node-a").2 = some ⟨"decode error"⟩ ∧
    (Run App.zero envNodeErr).outcome = Outcome.returned ∧
    (Run App.zero envNodeErr).trace.filter (fun e => e.isLaterStartupStep || e == Effect.glogError ⟨"decode error"⟩) =
      [Effect.glogError ⟨"decode error"⟩,
       Effect.mustRegister newApp.metricDownloadProbeSize,
       Effect.mustRegister newApp.metricDownloadDurations,
       Effect.mustRegister newApp.metricPingDurations,
       Effect.httpHandle "/metrics" Handler.promhttp,
       Effect.httpHandle "/ping" Handler.handlePing,
       Effect.goTestLoop App.zero] := by
  decide

/-- C8 (the code at a failing input): `main` calls `Run` on the zero `App`.
`Run` resolves the client and the namespace "default" into its local
variable, and starts the test loop on the receiver, whose client is nil and
whose namespace is empty: the loop panics on the nil client at
`a.kubeClient.CoreV1()` before it asks for any listing.  Started on a receiver
that has a client and a namespace of its own, the loop lists with those, not
with what `Run` resolved. -/
theorem Run_starts_testLoop_on_receiver :
    (Run App.zero envOk).outcome = Outcome.returned ∧
    (Run App.zero envOk).app.kubeClient = some ⟨1⟩ ∧
    (Run App.zero envOk).app.kubeNamespace = "default" ∧
    (Run App.zero envOk).trace.getLast? = some (Effect.goTestLoop App.zero) ∧
    App.zero.kubeClient = none ∧ App.zero.kubeNamespace = "" ∧
    testLoop App.zero envOk 3 = ⟨[], Outcome.panicked PanicValue.nilDereference⟩ ∧
    (Run appOther envOk).outcome = Outcome.returned ∧
    (Run appOther envOk).app.kubeClient = some ⟨1⟩ ∧
    (Run appOther envOk).app.kubeNamespace = "default" ∧
    (Run appOther envOk).trace.getLast? = some (Effect.goTestLoop appOther) ∧
    (testLoop appOther envOk 1).trace.head?
      = some (Effect.podsList (some ⟨7⟩) "other" "app=cluster-latency") := by
  decide

/-- C9 (the code at a failing input): the service lookup succeeds with a
service whose port list is empty; indexing `Ports` at 0 panics with index out
of range, before any metric is registered. -/
theorem Run_empty_ports_panics :
    envNoPorts.servicesGet (some ⟨1⟩) "default" "cluster-latency"
      = (some ⟨"cluster-latency", ⟨[]⟩⟩, none) ∧
    (Run App.zero envNoPorts).outcome = Outcome.panicked (PanicValue.indexOutOfRange 0 0) ∧
    (Run App.zero envNoPorts).trace.any Effect.isLaterStartupStep = false := by
  decide

end ClusterLatency
